import Mathlib

/-!
Verification of the inflation-tracker backend: a shallow embedding of the
CPI reconciliation and price-conversion engine (database.py, fred_fetcher.py,
fill_2017_gap.py, main.py) together with theorems about its behaviour.

Modelling conventions:
* Calendar dates (Python `datetime.date`, and the ISO `YYYY-MM-DD` strings the
  code compares lexicographically) are encoded as the natural number
  `y * 10000 + m * 100 + d`; numeric order on the code coincides with
  lexicographic order on the zero-padded string and with chronological order.
* CPI values and rates are exact rationals; the gap-fill interpolator, whose
  algorithm is genuinely about real exponentials, is embedded over the reals.
* Database rows are a list of records; SQLAlchemy sessions are created with
  `autoflush=False`, so a query inside a loop sees only the rows committed
  before the loop, never the pending `db.add` calls of the loop itself —
  the embedding therefore checks "existing" against the store as it was
  when the loop started.
* Fallible operations (Python exceptions) are embedded with `Option`/`Except`.
-/

namespace Infl

/-! ## Encoded dates -/

/-- Year component of an encoded date `y * 10000 + m * 100 + d`. -/
def yearOf (c : ℕ) : ℕ := c / 10000

/-- Month component of an encoded date. -/
def monthOf (c : ℕ) : ℕ := c % 10000 / 100

/-- Day component of an encoded date. -/
def dayOf (c : ℕ) : ℕ := c % 100

/-- Encode the first day of a calendar month, as Python builds the string
`f"{year}-{month:02d}-01"`. -/
def firstOfMonth (y m : ℕ) : ℕ := y * 10000 + m * 100 + 1

/-- Encode a full calendar date. -/
def mkDate (y m d : ℕ) : ℕ := y * 10000 + m * 100 + d

/-! ## Records

`InflationRecord` is the single table of database.py: date (unique key),
year, month, the CPI index, the two derived rates, and the last-write
timestamp (`updated_at`; the `data_source` column defaults and is never
read by the engine, so it is not carried). -/

structure InflationRecord where
  date : ℕ
  year : ℕ
  month : ℕ
  cpi_index : ℚ
  monthly_rate : ℚ
  annual_rate : ℚ
  updated_at : ℕ
deriving DecidableEq

/-- A record dict as produced by `InflationDataFetcher.get_processed_data`:
the same payload without the database timestamp. -/
structure SrcRecord where
  date : ℕ
  year : ℕ
  month : ℕ
  cpi_index : ℚ
  monthly_rate : ℚ
  annual_rate : ℚ
deriving DecidableEq

/-- The database table, in insertion order. -/
abbrev Store := List InflationRecord

/-- Materialise a fetched record as a database row;
`updated_at` is stamped with the creation time. -/
def SrcRecord.toRow (r : SrcRecord) (now : ℕ) : InflationRecord :=
  ⟨r.date, r.year, r.month, r.cpi_index, r.monthly_rate, r.annual_rate, now⟩

/-! ## database.py -/

/-- Embedding of `db.query(InflationRecord).order_by(InflationRecord.date.desc()).first()`:
the first row carrying the maximal date. -/
def getLatest : Store → Option InflationRecord
  | [] => none
  | r :: rest =>
    match getLatest rest with
    | none => some r
    | some l => if r.date < l.date then some l else some r

/-- Embedding of `order_by(InflationRecord.date.asc()).first()`:
the first row carrying the minimal date. -/
def getEarliest : Store → Option InflationRecord
  | [] => none
  | r :: rest =>
    match getEarliest rest with
    | none => some r
    | some e => if e.date < r.date then some e else some r

/-- One iteration of the `save_inflation_data` loop: update the row with the
same date if one exists in the committed store `s`, else add a new row. -/
def saveStep (now : ℕ) (s : Store) (acc : Store) (r : SrcRecord) : Store :=
  if s.any (fun x => x.date == r.date) then
    acc.map (fun x =>
      if x.date == r.date then
        { x with cpi_index := r.cpi_index, monthly_rate := r.monthly_rate,
                 annual_rate := r.annual_rate, updated_at := now }
      else x)
  else acc ++ [r.toRow now]

/-- Embedding of `save_inflation_data` (database.py lines 47-86): for each
record, update the row with the same date if one exists in the committed
store, else add a new row.  The session has `autoflush=False` and commits
once after the loop, so every existence check is against the store `s` as
committed before the call. -/
def save_inflation_data (now : ℕ) (s : Store) (records : List SrcRecord) : Store :=
  records.foldl (saveStep now s) s

/-- Embedding of `get_cpi_for_date` (database.py lines 89-131): exact date
match, then same year-and-month match, then latest row if the date is after
it, then earliest row if the date is before it, else `None`. -/
def get_cpi_for_date (s : Store) (target : ℕ) : Option ℚ :=
  match s.find? (fun r => r.date == target) with
  | some r => some r.cpi_index
  | none =>
    match s.find? (fun r => r.year == yearOf target && r.month == monthOf target) with
    | some r => some r.cpi_index
    | none =>
      match getLatest s with
      | some latest =>
        if latest.date < target then some latest.cpi_index
        else
          match getEarliest s with
          | some earliest =>
            if target < earliest.date then some earliest.cpi_index else none
          | none => none
      | none =>
        match getEarliest s with
        | some earliest =>
          if target < earliest.date then some earliest.cpi_index else none
        | none => none

/-- Python `round(x, n)` on the embedding's exact rationals: round
`x * 10 ^ n` to the nearest integer and scale back. -/
def roundTo (n : ℕ) (x : ℚ) : ℚ := (round (x * 10 ^ n) : ℤ) / 10 ^ n

/-- The payload returned by `calculate_price_conversion`. -/
structure ConversionResult where
  original_amount : ℚ
  converted_amount : ℚ
  multiplier : ℚ
  percentage_change : ℚ
  from_cpi : ℚ
  to_cpi : ℚ
deriving DecidableEq

/-- Embedding of `calculate_price_conversion` (database.py lines 134-154);
the Python `raise ValueError` when either CPI lookup returns `None` is the
`none` of the embedding. -/
def calculate_price_conversion (s : Store) (amount : ℚ) (from_date to_date : ℕ) :
    Option ConversionResult :=
  match get_cpi_for_date s from_date, get_cpi_for_date s to_date with
  | some from_cpi, some to_cpi =>
    some { original_amount := amount
           converted_amount := roundTo 2 (amount * (to_cpi / from_cpi))
           multiplier := roundTo 4 (to_cpi / from_cpi)
           percentage_change := roundTo 2 ((to_cpi / from_cpi - 1) * 100)
           from_cpi := from_cpi
           to_cpi := to_cpi }
  | _, _ => none

/-! ## fred_fetcher.py -/

/-- A row of the pandas frames handled by `InflationDataFetcher`:
a date and a CPI value. -/
structure DataPoint where
  date : ℕ
  cpi : ℚ
deriving DecidableEq, Inhabited

/-- The CPI of the last row of a frame (`df.iloc[-1]`), 0 on an empty frame
(the code only evaluates it on non-empty frames). -/
def lastCpi (l : List DataPoint) : ℚ :=
  match l.getLast? with
  | some p => p.cpi
  | none => 0

/-- The CPI of the first row of a frame (`df.iloc[0]`), 0 on an empty frame. -/
def firstCpi (l : List DataPoint) : ℚ :=
  match l.head? with
  | some p => p.cpi
  | none => 0

/-- The `adjustment_factor = last_historical_cpi / first_recent_cpi` of
`combine_data_sources` (fred_fetcher.py line 143). -/
def adjustment_factor (hist recent : List DataPoint) : ℚ :=
  lastCpi hist / firstCpi recent

/-- The rescaling `recent['cpi'] = recent['cpi'] * adjustment_factor`
(fred_fetcher.py line 144). -/
def adjustRecent (hist recent : List DataPoint) : List DataPoint :=
  recent.map (fun p => { p with cpi := p.cpi * adjustment_factor hist recent })

/-- The concatenation step of `combine_data_sources`: both sources present →
historical followed by the rescaled recent frame; otherwise whichever source
is non-empty (fred_fetcher.py lines 137-154). -/
def combinedRaw (hist recent : List DataPoint) : List DataPoint :=
  if !hist.isEmpty && !recent.isEmpty then hist ++ adjustRecent hist recent
  else if !hist.isEmpty then hist
  else recent

/-- Pandas `sort_values('date')` (a stable sort on the date column). -/
def sortByDate (df : List DataPoint) : List DataPoint :=
  df.insertionSort (fun a b => a.date ≤ b.date)

/-- Pandas `drop_duplicates(subset=['date'], keep='last')`: keep each row
whose date does not occur again later in the frame. -/
def dedupKeepLast : List DataPoint → List DataPoint
  | [] => []
  | x :: rest =>
    if rest.any (fun y => y.date == x.date) then dedupKeepLast rest
    else x :: dedupKeepLast rest

/-- Embedding of `InflationDataFetcher.combine_data_sources`
(fred_fetcher.py lines 122-161): concatenate the sources (rescaling the
recent one), filter to the requested start year, sort by date, drop
duplicate dates keeping the last. -/
def combine_data_sources (hist recent : List DataPoint) (start_year : ℕ) :
    List DataPoint :=
  if hist.isEmpty && recent.isEmpty then []
  else
    dedupKeepLast (sortByDate
      ((combinedRaw hist recent).filter (fun p => decide (start_year ≤ yearOf p.date))))

/-- Pandas `(df['cpi'].pct_change(periods=p) * 100).fillna(0)` evaluated at
index `i`: the leading `p` positions are `NaN` and are filled with 0. -/
def pctChangeRate (cpis : List ℚ) (p i : ℕ) : ℚ :=
  if p ≤ i then (cpis.getD i 0 - cpis.getD (i - p) 0) / cpis.getD (i - p) 0 * 100
  else 0

/-- A frame row after `calculate_inflation_rates`. -/
structure RatedPoint where
  date : ℕ
  cpi : ℚ
  monthly_rate : ℚ
  annual_rate : ℚ
deriving DecidableEq

/-- Embedding of `InflationDataFetcher.calculate_inflation_rates`
(fred_fetcher.py lines 163-180): sort by date, derive the month-over-month
and 12-month rates from the `cpi` column alone, fill the undefined leading
entries with 0. -/
def calculate_inflation_rates (df : List DataPoint) : List RatedPoint :=
  let sorted := sortByDate df
  let cpis := sorted.map (fun p => p.cpi)
  sorted.enum.map (fun ip =>
    { date := ip.2.date
      cpi := ip.2.cpi
      monthly_rate := pctChangeRate cpis 1 ip.1
      annual_rate := pctChangeRate cpis 12 ip.1 })

/-- Embedding of `InflationDataFetcher.get_processed_data`
(fred_fetcher.py lines 182-207): combine the sources, compute the rates,
attach year and month, and emit record dicts. -/
def get_processed_data (hist recent : List DataPoint) (start_year : ℕ) :
    List SrcRecord :=
  let df := combine_data_sources hist recent start_year
  if df.isEmpty then []
  else
    (calculate_inflation_rates df).map (fun r =>
      { date := r.date
        year := yearOf r.date
        month := monthOf r.date
        cpi_index := r.cpi
        monthly_rate := r.monthly_rate
        annual_rate := r.annual_rate })

/-! ## fill_2017_gap.py -/

/-- The `monthly_growth_rate = total_growth ** (1/N)` of the gap-fill
interpolator (fill_2017_gap.py lines 65-66, where `N = 12`), for a general
month span `N` as in the specification of the Gap-Fill component. -/
noncomputable def monthlyGrowthRate (cpiStart cpiEnd : ℝ) (N : ℕ) : ℝ :=
  (cpiEnd / cpiStart) ^ ((1 : ℝ) / (N : ℝ))

/-- The iteration `current_cpi = current_cpi * monthly_growth_rate` of the
interpolation loop: `interpolateAux g k c` is the list of the next `k`
values starting from `c`. -/
noncomputable def interpolateAux (g : ℝ) : ℕ → ℝ → List ℝ
  | 0, _ => []
  | k + 1, c => (c * g) :: interpolateAux g k (c * g)

/-- The `cpi_index` values of the synthetic records produced by the gap-fill
interpolator between anchors `N` months apart (fill_2017_gap.py lines 64-99;
the loop `for month in range(1, N)` yields `N - 1` values). -/
noncomputable def interpolateGapCpis (cpiStart cpiEnd : ℝ) (N : ℕ) : List ℝ :=
  interpolateAux (monthlyGrowthRate cpiStart cpiEnd N) (N - 1) cpiStart

/-- The CPI level at offset `k` months from the start anchor of a gap fill:
the anchor itself at `k = 0`, else the `k`-th interpolated value. -/
noncomputable def interpSeq (cpiStart cpiEnd : ℝ) (N k : ℕ) : ℝ :=
  if k = 0 then cpiStart else (interpolateGapCpis cpiStart cpiEnd N).getD (k - 1) 0

/-- Embedding of the computational core of `interpolate_2017_months`
(fill_2017_gap.py lines 36-104) given the two anchor CPIs: the Python float
division `dec_2017.cpi_index / dec_2016.cpi_index` raises `ZeroDivisionError`
when the December 2016 CPI is zero, embedded as `Except.error`; otherwise the
loop runs and returns the 11 interpolated `cpi_index` values (no other
failure: a negative anchor is not rejected). -/
noncomputable def interpolate_2017_months (dec2016cpi dec2017cpi : ℚ) :
    Except String (List ℝ) :=
  if dec2016cpi = 0 then Except.error "ZeroDivisionError"
  else Except.ok (interpolateGapCpis (dec2016cpi : ℝ) (dec2017cpi : ℝ) 12)

/-! ## main.py -/

/-- Pandas-free sort of database rows (`order_by(InflationRecord.date.asc())`). -/
def sortRowsByDate (s : Store) : Store :=
  s.insertionSort (fun a b => a.date ≤ b.date)

/-- The year-filter part of the `GET /inflation/data` query
(main.py lines 262-265).  Python truthiness: `if end_year:` skips the
upper-bound filter when `end_year` is `None` or `0`. -/
def queryRecords (s : Store) (start_year : ℕ) (end_year : Option ℕ) :
    List InflationRecord :=
  let q := s.filter (fun r => decide (start_year ≤ r.year))
  match end_year with
  | some ey => if ey ≠ 0 then q.filter (fun r => decide (r.year ≤ ey)) else q
  | none => q

/-- Embedding of the `GET /inflation/data` endpoint (main.py lines 254-293).
FastAPI validation: `start_year` must be at least 1990 and `limit` at most
10000, else a 422 validation error.  Then sort the filtered rows by date;
apply no row limit at all when `limit` is 1000 or more, else truncate to
`limit` rows; 404 on an empty result. -/
def get_inflation_data (s : Store) (start_year : ℕ) (end_year : Option ℕ)
    (limit : ℕ) : Except ℕ (List InflationRecord) :=
  if start_year < 1990 then Except.error 422
  else if 10000 < limit then Except.error 422
  else
    let records := if 1000 ≤ limit then sortRowsByDate (queryRecords s start_year end_year)
                   else (sortRowsByDate (queryRecords s start_year end_year)).take limit
    if records.isEmpty then Except.error 404 else Except.ok records

/-- Day count of `datetime.date.toordinal` for years before `y`. -/
def daysBeforeYear (y : ℕ) : ℕ :=
  365 * (y - 1) + (y - 1) / 4 - (y - 1) / 100 + (y - 1) / 400

/-- Gregorian leap-year test. -/
def isLeap (y : ℕ) : Bool :=
  (y % 4 == 0 && y % 100 != 0) || y % 400 == 0

/-- Days before the first of month `m` in a non-leap year. -/
def daysBeforeMonth (m : ℕ) : ℕ :=
  [0, 0, 31, 59, 90, 120, 151, 181, 212, 243, 273, 304, 334].getD m 0

/-- Proleptic-Gregorian ordinal of an encoded date (Python
`datetime.date.toordinal`), as used by `(end - start).days`. -/
def toOrdinal (c : ℕ) : ℕ :=
  daysBeforeYear (yearOf c) + daysBeforeMonth (monthOf c) +
    (if 2 < monthOf c ∧ isLeap (yearOf c) then 1 else 0) + dayOf c

/-- The payload of `GET /inflation/range`. -/
structure RangeResult where
  start_date : ℕ
  end_date : ℕ
  total_inflation_percent : ℚ
  multiplier : ℚ
  years : ℚ
deriving DecidableEq

/-- Embedding of the `GET /inflation/range` endpoint (main.py lines 350-369):
the handler ignores the store entirely and returns the hardcoded sample
value `total_inflation = 234.5` with `multiplier = 1 + total_inflation / 100`
and `years = (end - start).days / 365.25`. -/
def get_inflation_range (start_date end_date : ℕ) : RangeResult :=
  let total_inflation : ℚ := 234.5
  { start_date := start_date
    end_date := end_date
    total_inflation_percent := total_inflation
    multiplier := 1 + total_inflation / 100
    years := ((toOrdinal end_date : ℚ) - (toOrdinal start_date : ℚ)) / 365.25 }

/-- A hardcoded very-recent-month entry of `startup_event`
(main.py lines 127-137). -/
structure HardRecord where
  year : ℕ
  month : ℕ
  monthly_rate : ℚ
  annual_rate : ℚ
deriving DecidableEq

/-- The `very_recent_data` table of `startup_event` (main.py lines 127-137). -/
def very_recent_data : List HardRecord :=
  [⟨2025, 1, 2.2, 84.5⟩, ⟨2025, 2, 2.4, 66.9⟩, ⟨2025, 3, 3.7, 55.9⟩,
   ⟨2025, 4, 2.8, 47.3⟩, ⟨2025, 5, 1.5, 43.5⟩, ⟨2025, 6, 1.6, 39.4⟩,
   ⟨2025, 7, 1.9, 37.0⟩, ⟨2025, 8, 1.9, 33.6⟩, ⟨2025, 9, 2.1, 31.8⟩]

/-- The `months_diff = (cy - ly) * 12 + (cm - lm)` of `startup_event`
(main.py line 64), over the integers as in Python. -/
def monthsDiff (current latest : ℕ) : ℤ :=
  ((yearOf current : ℤ) - (yearOf latest : ℤ)) * 12 +
    ((monthOf current : ℤ) - (monthOf latest : ℤ))

/-- The fetch start year of the FRED-update phase (main.py line 76):
`latest_date.year if latest_date.year >= 2017 else 2017`. -/
def startYearFor (latestDate : ℕ) : ℕ :=
  if 2017 ≤ yearOf latestDate then yearOf latestDate else 2017

/-- The FRED-update phase of `startup_event` (main.py lines 70-118): when the
store is behind, fetch processed data from the latest stored year (at least
2017), keep the records dated strictly after the latest stored date, insert
those not already present (the session has `autoflush=False`, so existence is
checked against the store as committed before the loop), and re-query the
latest record when new records were found.  Returns the new store and the
current latest record. -/
def fredNewRecords (hist recent : List DataPoint) (latest : InflationRecord) :
    List SrcRecord :=
  (get_processed_data hist recent (startYearFor latest.date)).filter
    (fun r => decide (latest.date < r.date))

/-- The insertion loop of the FRED-update phase: add every new record whose
date is not already present in the committed store (`autoflush=False`, so the
check is against `s` as committed before the loop). -/
def fredInsert (now : ℕ) (s : Store) (rs : List SrcRecord) : Store :=
  s ++ (rs.filter (fun r => !s.any (fun x => x.date == r.date))).map
    (fun r => r.toRow now)

def fredPhase (hist recent : List DataPoint) (now : ℕ) (s : Store)
    (latest : InflationRecord) : Store × InflationRecord :=
  if (get_processed_data hist recent (startYearFor latest.date)).isEmpty then (s, latest)
  else if (fredNewRecords hist recent latest).isEmpty then (s, latest)
  else (fredInsert now s (fredNewRecords hist recent latest),
        (getLatest (fredInsert now s (fredNewRecords hist recent latest))).getD latest)

/-- The hardcoded-data phase of `startup_event` (main.py lines 121-175): walk
the override table; for each month strictly after the latest stored date and
not in the future, compound `current_cpi` forward from the latest stored CPI
and insert the month unless a row with that date already exists in the store
as committed at the start of the phase. -/
def hardStep (today now : ℕ) (s : Store) (latest : InflationRecord)
    (st : ℚ × Store) (h : HardRecord) : ℚ × Store :=
  if latest.date < firstOfMonth h.year h.month ∧
      firstOfMonth h.year h.month ≤ today then
    if s.any (fun x => x.date == firstOfMonth h.year h.month) then
      (st.1 * (1 + h.monthly_rate / 100), st.2)
    else
      (st.1 * (1 + h.monthly_rate / 100),
       st.2 ++ [⟨firstOfMonth h.year h.month, h.year, h.month,
                 st.1 * (1 + h.monthly_rate / 100),
                 h.monthly_rate, h.annual_rate, now⟩])
  else st

def hardPhase (hard : List HardRecord) (today now : ℕ) (s : Store)
    (latest : InflationRecord) : Store :=
  (hard.foldl (hardStep today now s latest) (latest.cpi_index, s)).2

/-- The initial-population step of `startup_event` (main.py lines 33-51):
an empty store is bulk-loaded from the merged sources (and left unchanged
when nothing could be fetched — the handler returns early). -/
def populateIfEmpty (hist recent : List DataPoint) (now : ℕ) (s : Store) : Store :=
  if s.isEmpty then
    (if (get_processed_data hist recent 1995).isEmpty then s
     else save_inflation_data now s (get_processed_data hist recent 1995))
  else s

/-- The update part of `startup_event` (main.py lines 54-187), starting from
the possibly just-populated store: if the store is empty, return (early
return at line 60); when the store is behind today, run the FRED-update
phase and — if the recomputed `months_diff` is still positive — the
hardcoded-data phase over `very_recent_data`. -/
def refreshFrom (hist recent : List DataPoint) (today now : ℕ) (s1 : Store) :
    Store :=
  match getLatest s1 with
  | none => s1
  | some latest =>
    if 0 < monthsDiff today latest.date then
      (if 0 < monthsDiff today (fredPhase hist recent now s1 latest).2.date then
        hardPhase very_recent_data today now
          (fredPhase hist recent now s1 latest).1
          (fredPhase hist recent now s1 latest).2
      else (fredPhase hist recent now s1 latest).1)
    else s1

/-- Embedding of the `startup_event` refresh cycle (main.py lines 25-192):
populate an empty store from the merged sources, then bring it up to date.
`hist`/`recent` are the two source datasets (unchanged between runs when no
new source data arrives), `today` is `date.today()` and `now` the write
timestamp. -/
def startup_event (hist recent : List DataPoint) (today now : ℕ) (s : Store) :
    Store :=
  refreshFrom hist recent today now (populateIfEmpty hist recent now s)

/-! ## Helper lemmas -/

lemma find_unique {α : Type} {p : α → Bool} :
    ∀ {l : List α} {r : α}, r ∈ l → p r = true →
      (∀ a ∈ l, ∀ b ∈ l, p a = true → p b = true → a = b) → l.find? p = some r := by
  intro l
  induction l with
  | nil => intro r hr; simp at hr
  | cons x xs ih =>
    intro r hr hpr hu
    by_cases hx : p x = true
    · have hxr : x = r := hu x (List.mem_cons_self x xs) r hr hx hpr
      rw [List.find?_cons_of_pos _ hx, hxr]
    · have hrx : r ∈ xs := by
        rcases List.mem_cons.mp hr with h | h
        · subst h; exact absurd hpr hx
        · exact h
      rw [List.find?_cons_of_neg _ (by simpa using hx)]
      exact ih hrx hpr (fun a ha b hb => hu a (List.mem_cons_of_mem _ ha) b (List.mem_cons_of_mem _ hb))

lemma getLatest_eq_none_iff (s : Store) : getLatest s = none ↔ s = [] := by
  cases s with
  | nil => simp [getLatest]
  | cons r rest =>
    simp only [getLatest]
    cases getLatest rest with
    | none => simp
    | some l => by_cases h : r.date < l.date <;> simp [h]

lemma getLatest_mem : ∀ {s : Store} {l : InflationRecord}, getLatest s = some l → l ∈ s := by
  intro s
  induction s with
  | nil => intro l h; simp [getLatest] at h
  | cons r rest ih =>
    intro l h
    cases hrest : getLatest rest with
    | none => simp [getLatest, hrest] at h; simp [h]
    | some m =>
      by_cases hd : r.date < m.date
      · simp [getLatest, hrest, hd] at h
        exact List.mem_cons_of_mem _ (h ▸ ih hrest)
      · simp [getLatest, hrest, hd] at h
        simp [h]

lemma getLatest_max : ∀ {s : Store} {l : InflationRecord}, getLatest s = some l →
    ∀ r ∈ s, r.date ≤ l.date := by
  intro s
  induction s with
  | nil => intro l h; simp [getLatest] at h
  | cons x rest ih =>
    intro l h r hr
    cases hrest : getLatest rest with
    | none =>
      simp [getLatest, hrest] at h
      rcases List.mem_cons.mp hr with h1 | h1
      · subst h1; simp [h]
      · simp [(getLatest_eq_none_iff rest).mp hrest] at h1
    | some m =>
      by_cases hd : x.date < m.date
      · simp [getLatest, hrest, hd] at h
        rcases List.mem_cons.mp hr with h1 | h1
        · subst h1; exact h ▸ le_of_lt hd
        · exact h ▸ ih hrest r h1
      · simp [getLatest, hrest, hd] at h
        rcases List.mem_cons.mp hr with h1 | h1
        · subst h1; simp [h]
        · exact h ▸ le_trans (ih hrest r h1) (le_of_not_lt hd)

lemma getLatest_eq_of_max {s : Store} {l : InflationRecord} (hmem : l ∈ s)
    (hmax : ∀ r ∈ s, r.date ≤ l.date)
    (hd : ∀ a ∈ s, ∀ b ∈ s, a.date = b.date → a = b) : getLatest s = some l := by
  cases hs : getLatest s with
  | none => exact absurd ((getLatest_eq_none_iff s).mp hs ▸ hmem) (List.not_mem_nil l)
  | some m =>
    have hm := getLatest_mem hs
    have h1 : m.date ≤ l.date := hmax m hm
    have h2 : l.date ≤ m.date := getLatest_max hs l hmem
    rw [hd m hm l hmem (le_antisymm h1 h2)]

lemma getEarliest_eq_none_iff (s : Store) : getEarliest s = none ↔ s = [] := by
  cases s with
  | nil => simp [getEarliest]
  | cons r rest =>
    simp only [getEarliest]
    cases getEarliest rest with
    | none => simp
    | some l => by_cases h : l.date < r.date <;> simp [h]

lemma getEarliest_mem : ∀ {s : Store} {e : InflationRecord}, getEarliest s = some e → e ∈ s := by
  intro s
  induction s with
  | nil => intro e h; simp [getEarliest] at h
  | cons r rest ih =>
    intro e h
    cases hrest : getEarliest rest with
    | none => simp [getEarliest, hrest] at h; simp [h]
    | some m =>
      by_cases hd : m.date < r.date
      · simp [getEarliest, hrest, hd] at h
        exact List.mem_cons_of_mem _ (h ▸ ih hrest)
      · simp [getEarliest, hrest, hd] at h
        simp [h]

lemma getEarliest_min : ∀ {s : Store} {e : InflationRecord}, getEarliest s = some e →
    ∀ r ∈ s, e.date ≤ r.date := by
  intro s
  induction s with
  | nil => intro e h; simp [getEarliest] at h
  | cons x rest ih =>
    intro e h r hr
    cases hrest : getEarliest rest with
    | none =>
      simp [getEarliest, hrest] at h
      rcases List.mem_cons.mp hr with h1 | h1
      · subst h1; simp [h]
      · simp [(getEarliest_eq_none_iff rest).mp hrest] at h1
    | some m =>
      by_cases hd : m.date < x.date
      · simp [getEarliest, hrest, hd] at h
        rcases List.mem_cons.mp hr with h1 | h1
        · subst h1; exact h ▸ le_of_lt hd
        · exact h ▸ ih hrest r h1
      · simp [getEarliest, hrest, hd] at h
        rcases List.mem_cons.mp hr with h1 | h1
        · subst h1; simp [h]
        · exact h ▸ le_trans (le_of_not_lt hd) (ih hrest r h1)

lemma getEarliest_eq_of_min {s : Store} {e : InflationRecord} (hmem : e ∈ s)
    (hmin : ∀ r ∈ s, e.date ≤ r.date)
    (hd : ∀ a ∈ s, ∀ b ∈ s, a.date = b.date → a = b) : getEarliest s = some e := by
  cases hs : getEarliest s with
  | none => exact absurd ((getEarliest_eq_none_iff s).mp hs ▸ hmem) (List.not_mem_nil e)
  | some m =>
    have hm := getEarliest_mem hs
    have h1 : e.date ≤ m.date := hmin m hm
    have h2 : m.date ≤ e.date := getEarliest_min hs e hmem
    rw [hd m hm e hmem (le_antisymm h2 h1)]

/-! ### C1 -/

/-- C1: `cpiAt` (a total function — it never raises) resolves by the exact
ladder of the spec on any store with unique dates and unique calendar months:
(1) an exact-date record wins; (2) otherwise a same-year-and-month record;
(3) otherwise, a date after the maximal stored record returns that record's
CPI; (4) otherwise, a date before the minimal stored record returns that
record's CPI; (5) otherwise (an interior gap with no same-month record) the
result is `none`. -/
theorem cpiAt_resolution_ladder (s : Store) (d : ℕ)
    (hdates : ∀ a ∈ s, ∀ b ∈ s, a.date = b.date → a = b)
    (hmonths : ∀ a ∈ s, ∀ b ∈ s, a.year = b.year → a.month = b.month → a = b) :
    (∀ r ∈ s, r.date = d → get_cpi_for_date s d = some r.cpi_index) ∧
    ((∀ r ∈ s, r.date ≠ d) →
      ∀ r ∈ s, r.year = yearOf d → r.month = monthOf d →
        get_cpi_for_date s d = some r.cpi_index) ∧
    (∀ l ∈ s, (∀ r ∈ s, r.date ≤ l.date) →
      (∀ r ∈ s, r.date ≠ d) →
      (∀ r ∈ s, ¬(r.year = yearOf d ∧ r.month = monthOf d)) →
      l.date < d → get_cpi_for_date s d = some l.cpi_index) ∧
    (∀ e ∈ s, (∀ r ∈ s, e.date ≤ r.date) →
      (∀ r ∈ s, r.date ≠ d) →
      (∀ r ∈ s, ¬(r.year = yearOf d ∧ r.month = monthOf d)) →
      d < e.date → get_cpi_for_date s d = some e.cpi_index) ∧
    (∀ l ∈ s, (∀ r ∈ s, r.date ≤ l.date) →
      ∀ e ∈ s, (∀ r ∈ s, e.date ≤ r.date) →
      (∀ r ∈ s, r.date ≠ d) →
      (∀ r ∈ s, ¬(r.year = yearOf d ∧ r.month = monthOf d)) →
      ¬ l.date < d → ¬ d < e.date → get_cpi_for_date s d = none) := by
  refine ⟨?_, ?_, ?_, ?_, ?_⟩
  · intro r hr hrd
    have hfind : s.find? (fun x => x.date == d) = some r := by
      refine find_unique hr (by simp [hrd]) ?_
      intro a ha b hb hpa hpb
      simp at hpa hpb
      exact hdates a ha b hb (hpa.trans hpb.symm)
    simp [get_cpi_for_date, hfind]
  · intro hne r hr hy hm
    have hfind1 : s.find? (fun x => x.date == d) = none := by
      rw [List.find?_eq_none]
      intro x hx
      simp [hne x hx]
    have hfind2 : s.find? (fun x => x.year == yearOf d && x.month == monthOf d) = some r := by
      refine find_unique hr (by simp [hy, hm]) ?_
      intro a ha b hb hpa hpb
      simp at hpa hpb
      exact hmonths a ha b hb (hpa.1.trans hpb.1.symm) (hpa.2.trans hpb.2.symm)
    simp [get_cpi_for_date, hfind1, hfind2]
  · intro l hl hmax hne hnm hld
    have hfind1 : s.find? (fun x => x.date == d) = none := by
      rw [List.find?_eq_none]
      intro x hx
      simp [hne x hx]
    have hfind2 : s.find? (fun x => x.year == yearOf d && x.month == monthOf d) = none := by
      rw [List.find?_eq_none]
      intro x hx
      have := hnm x hx
      simp only [Bool.and_eq_true, beq_iff_eq]
      tauto
    have hlatest : getLatest s = some l := getLatest_eq_of_max hl hmax hdates
    simp [get_cpi_for_date, hfind1, hfind2, hlatest, hld]
  · intro e he hmin hne hnm hde
    have hfind1 : s.find? (fun x => x.date == d) = none := by
      rw [List.find?_eq_none]
      intro x hx
      simp [hne x hx]
    have hfind2 : s.find? (fun x => x.year == yearOf d && x.month == monthOf d) = none := by
      rw [List.find?_eq_none]
      intro x hx
      have := hnm x hx
      simp only [Bool.and_eq_true, beq_iff_eq]
      tauto
    have hearliest : getEarliest s = some e := getEarliest_eq_of_min he hmin hdates
    cases hlat : getLatest s with
    | none => simp [(getLatest_eq_none_iff s).mp hlat] at he
    | some l =>
      have h1 : e.date ≤ l.date := hmin l (getLatest_mem hlat)
      have hld : ¬ l.date < d := by omega
      simp [get_cpi_for_date, hfind1, hfind2, hlat, hld, hearliest, hde]
  · intro l hl hmax e he hmin hne hnm hld hde
    have hfind1 : s.find? (fun x => x.date == d) = none := by
      rw [List.find?_eq_none]
      intro x hx
      simp [hne x hx]
    have hfind2 : s.find? (fun x => x.year == yearOf d && x.month == monthOf d) = none := by
      rw [List.find?_eq_none]
      intro x hx
      have := hnm x hx
      simp only [Bool.and_eq_true, beq_iff_eq]
      tauto
    have hlatest : getLatest s = some l := getLatest_eq_of_max hl hmax hdates
    have hearliest : getEarliest s = some e := getEarliest_eq_of_min he hmin hdates
    simp [get_cpi_for_date, hfind1, hfind2, hlatest, hld, hearliest, hde]

/-- C1 witness: the ladder instantiated on a concrete three-month store
(January, February, April 2020) at the query date 2020-02-15. -/
theorem cpiAt_resolution_ladder_instance :
    (∀ a ∈ ([⟨20200101, 2020, 1, 100, 0, 0, 0⟩, ⟨20200201, 2020, 2, 110, 0, 0, 0⟩,
             ⟨20200401, 2020, 4, 120, 0, 0, 0⟩] : Store),
      ∀ b ∈ ([⟨20200101, 2020, 1, 100, 0, 0, 0⟩, ⟨20200201, 2020, 2, 110, 0, 0, 0⟩,
              ⟨20200401, 2020, 4, 120, 0, 0, 0⟩] : Store), a.date = b.date → a = b) ∧
    ((∀ r ∈ ([⟨20200101, 2020, 1, 100, 0, 0, 0⟩, ⟨20200201, 2020, 2, 110, 0, 0, 0⟩,
              ⟨20200401, 2020, 4, 120, 0, 0, 0⟩] : Store), r.date = 20200215 →
        get_cpi_for_date [⟨20200101, 2020, 1, 100, 0, 0, 0⟩, ⟨20200201, 2020, 2, 110, 0, 0, 0⟩,
          ⟨20200401, 2020, 4, 120, 0, 0, 0⟩] 20200215 = some r.cpi_index) ∧
      ((∀ r ∈ ([⟨20200101, 2020, 1, 100, 0, 0, 0⟩, ⟨20200201, 2020, 2, 110, 0, 0, 0⟩,
                ⟨20200401, 2020, 4, 120, 0, 0, 0⟩] : Store), r.date ≠ 20200215) →
        ∀ r ∈ ([⟨20200101, 2020, 1, 100, 0, 0, 0⟩, ⟨20200201, 2020, 2, 110, 0, 0, 0⟩,
                ⟨20200401, 2020, 4, 120, 0, 0, 0⟩] : Store),
          r.year = yearOf 20200215 → r.month = monthOf 20200215 →
          get_cpi_for_date [⟨20200101, 2020, 1, 100, 0, 0, 0⟩, ⟨20200201, 2020, 2, 110, 0, 0, 0⟩,
            ⟨20200401, 2020, 4, 120, 0, 0, 0⟩] 20200215 = some r.cpi_index) ∧
      (∀ l ∈ ([⟨20200101, 2020, 1, 100, 0, 0, 0⟩, ⟨20200201, 2020, 2, 110, 0, 0, 0⟩,
               ⟨20200401, 2020, 4, 120, 0, 0, 0⟩] : Store),
        (∀ r ∈ ([⟨20200101, 2020, 1, 100, 0, 0, 0⟩, ⟨20200201, 2020, 2, 110, 0, 0, 0⟩,
                 ⟨20200401, 2020, 4, 120, 0, 0, 0⟩] : Store), r.date ≤ l.date) →
        (∀ r ∈ ([⟨20200101, 2020, 1, 100, 0, 0, 0⟩, ⟨20200201, 2020, 2, 110, 0, 0, 0⟩,
                 ⟨20200401, 2020, 4, 120, 0, 0, 0⟩] : Store), r.date ≠ 20200215) →
        (∀ r ∈ ([⟨20200101, 2020, 1, 100, 0, 0, 0⟩, ⟨20200201, 2020, 2, 110, 0, 0, 0⟩,
                 ⟨20200401, 2020, 4, 120, 0, 0, 0⟩] : Store),
          ¬(r.year = yearOf 20200215 ∧ r.month = monthOf 20200215)) →
        l.date < 20200215 →
        get_cpi_for_date [⟨20200101, 2020, 1, 100, 0, 0, 0⟩, ⟨20200201, 2020, 2, 110, 0, 0, 0⟩,
          ⟨20200401, 2020, 4, 120, 0, 0, 0⟩] 20200215 = some l.cpi_index) ∧
      (∀ e ∈ ([⟨20200101, 2020, 1, 100, 0, 0, 0⟩, ⟨20200201, 2020, 2, 110, 0, 0, 0⟩,
               ⟨20200401, 2020, 4, 120, 0, 0, 0⟩] : Store),
        (∀ r ∈ ([⟨20200101, 2020, 1, 100, 0, 0, 0⟩, ⟨20200201, 2020, 2, 110, 0, 0, 0⟩,
                 ⟨20200401, 2020, 4, 120, 0, 0, 0⟩] : Store), e.date ≤ r.date) →
        (∀ r ∈ ([⟨20200101, 2020, 1, 100, 0, 0, 0⟩, ⟨20200201, 2020, 2, 110, 0, 0, 0⟩,
                 ⟨20200401, 2020, 4, 120, 0, 0, 0⟩] : Store), r.date ≠ 20200215) →
        (∀ r ∈ ([⟨20200101, 2020, 1, 100, 0, 0, 0⟩, ⟨20200201, 2020, 2, 110, 0, 0, 0⟩,
                 ⟨20200401, 2020, 4, 120, 0, 0, 0⟩] : Store),
          ¬(r.year = yearOf 20200215 ∧ r.month = monthOf 20200215)) →
        20200215 < e.date →
        get_cpi_for_date [⟨20200101, 2020, 1, 100, 0, 0, 0⟩, ⟨20200201, 2020, 2, 110, 0, 0, 0⟩,
          ⟨20200401, 2020, 4, 120, 0, 0, 0⟩] 20200215 = some e.cpi_index) ∧
      (∀ l ∈ ([⟨20200101, 2020, 1, 100, 0, 0, 0⟩, ⟨20200201, 2020, 2, 110, 0, 0, 0⟩,
               ⟨20200401, 2020, 4, 120, 0, 0, 0⟩] : Store),
        (∀ r ∈ ([⟨20200101, 2020, 1, 100, 0, 0, 0⟩, ⟨20200201, 2020, 2, 110, 0, 0, 0⟩,
                 ⟨20200401, 2020, 4, 120, 0, 0, 0⟩] : Store), r.date ≤ l.date) →
        ∀ e ∈ ([⟨20200101, 2020, 1, 100, 0, 0, 0⟩, ⟨20200201, 2020, 2, 110, 0, 0, 0⟩,
                ⟨20200401, 2020, 4, 120, 0, 0, 0⟩] : Store),
          (∀ r ∈ ([⟨20200101, 2020, 1, 100, 0, 0, 0⟩, ⟨20200201, 2020, 2, 110, 0, 0, 0⟩,
                   ⟨20200401, 2020, 4, 120, 0, 0, 0⟩] : Store), e.date ≤ r.date) →
          (∀ r ∈ ([⟨20200101, 2020, 1, 100, 0, 0, 0⟩, ⟨20200201, 2020, 2, 110, 0, 0, 0⟩,
                   ⟨20200401, 2020, 4, 120, 0, 0, 0⟩] : Store), r.date ≠ 20200215) →
          (∀ r ∈ ([⟨20200101, 2020, 1, 100, 0, 0, 0⟩, ⟨20200201, 2020, 2, 110, 0, 0, 0⟩,
                   ⟨20200401, 2020, 4, 120, 0, 0, 0⟩] : Store),
            ¬(r.year = yearOf 20200215 ∧ r.month = monthOf 20200215)) →
          ¬ l.date < 20200215 → ¬ 20200215 < e.date →
          get_cpi_for_date [⟨20200101, 2020, 1, 100, 0, 0, 0⟩, ⟨20200201, 2020, 2, 110, 0, 0, 0⟩,
            ⟨20200401, 2020, 4, 120, 0, 0, 0⟩] 20200215 = none)) :=
  ⟨by decide,
    cpiAt_resolution_ladder
      [⟨20200101, 2020, 1, 100, 0, 0, 0⟩, ⟨20200201, 2020, 2, 110, 0, 0, 0⟩,
       ⟨20200401, 2020, 4, 120, 0, 0, 0⟩] 20200215 (by decide) (by decide)⟩

/-! ### C9 -/

/-- C9: `convert` fails (raising the `ValueError` that main.py surfaces as a
400) precisely when `cpiAt` fails to resolve at least one of the two dates;
in the failure case no conversion payload is produced at all. -/
theorem convert_fails_iff_unresolved (s : Store) (amount : ℚ) (d1 d2 : ℕ) :
    calculate_price_conversion s amount d1 d2 = none ↔
      (get_cpi_for_date s d1 = none ∨ get_cpi_for_date s d2 = none) := by
  unfold calculate_price_conversion
  rcases h1 : get_cpi_for_date s d1 with _ | c1 <;>
    rcases h2 : get_cpi_for_date s d2 with _ | c2 <;> simp

/-! ### C2 -/

/-- C2: when both CPI lookups resolve (to positive values), `convert` returns
exactly the ratio arithmetic of the spec — multiplier rounded to 4 decimals,
converted amount and percentage change (computed from the unrounded ratio)
rounded to 2 decimals. -/
theorem convert_formula (s : Store) (amount : ℚ) (d1 d2 : ℕ) (cf ct : ℚ)
    (h1 : get_cpi_for_date s d1 = some cf) (h2 : get_cpi_for_date s d2 = some ct)
    (hcf : 0 < cf) (hct : 0 < ct) :
    calculate_price_conversion s amount d1 d2 =
      some { original_amount := amount
             converted_amount := roundTo 2 (amount * (ct / cf))
             multiplier := roundTo 4 (ct / cf)
             percentage_change := roundTo 2 ((ct / cf - 1) * 100)
             from_cpi := cf
             to_cpi := ct } := by
  unfold calculate_price_conversion
  rw [h1, h2]

/-- C2 witness: on a store holding CPI 100 for January 2020 and CPI 150 for
January 2021, converting 1000 yields multiplier 1.5, converted amount
1500.00 and percentage change 50.00. -/
theorem convert_formula_instance :
    get_cpi_for_date [⟨20200101, 2020, 1, 100, 0, 0, 0⟩, ⟨20210101, 2021, 1, 150, 0, 0, 0⟩] 20200101
        = some 100 ∧
    get_cpi_for_date [⟨20200101, 2020, 1, 100, 0, 0, 0⟩, ⟨20210101, 2021, 1, 150, 0, 0, 0⟩] 20210101
        = some 150 ∧
    (0 : ℚ) < 100 ∧ (0 : ℚ) < 150 ∧
    calculate_price_conversion
        [⟨20200101, 2020, 1, 100, 0, 0, 0⟩, ⟨20210101, 2021, 1, 150, 0, 0, 0⟩]
        1000 20200101 20210101 =
      some { original_amount := 1000
             converted_amount := 1500
             multiplier := 1.5
             percentage_change := 50
             from_cpi := 100
             to_cpi := 150 } :=
  ⟨by decide, by decide, by norm_num, by norm_num,
    (convert_formula _ 1000 20200101 20210101 100 150 (by decide) (by decide)
      (by norm_num) (by norm_num)).trans
      (by norm_num [roundTo, round_eq])⟩

/-! ### C5 -/

lemma interpolateAux_length (g : ℝ) : ∀ (n : ℕ) (c : ℝ), (interpolateAux g n c).length = n := by
  intro n
  induction n with
  | zero => intro c; rfl
  | succ k ih => intro c; simp [interpolateAux, ih]

lemma interpolateAux_getD (g : ℝ) : ∀ (n : ℕ) (c : ℝ) (i : ℕ), i < n →
    (interpolateAux g n c).getD i 0 = c * g ^ (i + 1) := by
  intro n
  induction n with
  | zero => intro c i hi; omega
  | succ k ih =>
    intro c i hi
    cases i with
    | zero => simp [interpolateAux]
    | succ j =>
      show (interpolateAux g k (c * g)).getD j 0 = _
      rw [ih (c * g) j (by omega)]
      ring

lemma monthlyGrowthRate_pow (cpiStart cpiEnd : ℝ) (N k : ℕ)
    (hs : 0 < cpiStart) (he : 0 < cpiEnd) :
    monthlyGrowthRate cpiStart cpiEnd N ^ k =
      (cpiEnd / cpiStart) ^ ((k : ℝ) / (N : ℝ)) := by
  have hx : (0 : ℝ) ≤ cpiEnd / cpiStart := le_of_lt (div_pos he hs)
  unfold monthlyGrowthRate
  rw [← Real.rpow_natCast ((cpiEnd / cpiStart) ^ ((1 : ℝ) / (N : ℝ))) k,
      ← Real.rpow_mul hx]
  congr 1
  ring

/-- C5: for positive anchors exactly `N` months apart (`N >= 1`), the
gap-fill interpolator produces the `N - 1` intermediate values
`cpi_k = cpiStart * (cpiEnd/cpiStart) ^ (k/N)`; every filled month has the
same implied monthly growth rate `(cpiEnd/cpiStart) ^ (1/N)`, and compounding
that rate `N` times from `cpiStart` reaches `cpiEnd` exactly (in exact real
arithmetic). -/
theorem gap_interpolation_geometric (cpiStart cpiEnd : ℝ) (N : ℕ)
    (hs : 0 < cpiStart) (he : 0 < cpiEnd) (hN : 1 ≤ N) :
    (interpolateGapCpis cpiStart cpiEnd N).length = N - 1 ∧
    (∀ k, k ≤ N - 1 → interpSeq cpiStart cpiEnd N k =
        cpiStart * (cpiEnd / cpiStart) ^ ((k : ℝ) / (N : ℝ))) ∧
    (∀ k, 1 ≤ k → k ≤ N - 1 →
        interpSeq cpiStart cpiEnd N k / interpSeq cpiStart cpiEnd N (k - 1) =
          monthlyGrowthRate cpiStart cpiEnd N) ∧
    cpiStart * monthlyGrowthRate cpiStart cpiEnd N ^ N = cpiEnd := by
  have hx : 0 < cpiEnd / cpiStart := div_pos he hs
  have hNne : (N : ℝ) ≠ 0 := Nat.cast_ne_zero.mpr (by omega)
  have hclosed : ∀ k, k ≤ N - 1 → interpSeq cpiStart cpiEnd N k =
      cpiStart * (cpiEnd / cpiStart) ^ ((k : ℝ) / (N : ℝ)) := by
    intro k hk
    cases k with
    | zero =>
      simp [interpSeq]
    | succ j =>
      have hlt : j < N - 1 := by omega
      show (interpolateGapCpis cpiStart cpiEnd N).getD (j + 1 - 1) 0 = _
      unfold interpolateGapCpis
      rw [Nat.add_sub_cancel, interpolateAux_getD _ _ _ _ hlt,
          monthlyGrowthRate_pow _ _ _ _ hs he]
  refine ⟨?_, hclosed, ?_, ?_⟩
  · unfold interpolateGapCpis
    exact interpolateAux_length _ _ _
  · intro k hk1 hk2
    rw [hclosed k hk2, hclosed (k - 1) (by omega)]
    have hcs : cpiStart ≠ 0 := ne_of_gt hs
    rw [mul_div_mul_left _ _ hcs, ← Real.rpow_sub hx]
    unfold monthlyGrowthRate
    congr 1
    have hcast : ((k - 1 : ℕ) : ℝ) = (k : ℝ) - 1 := by
      rw [Nat.cast_sub hk1, Nat.cast_one]
    rw [hcast]
    field_simp
  · rw [monthlyGrowthRate_pow _ _ _ _ hs he, div_self hNne, Real.rpow_one,
        mul_div_cancel₀ _ (ne_of_gt hs)]

/-- C5 witness: anchors 100 and 200 twelve months apart give monthly growth
`2 ^ (1/12)` and the month-6 value `100 * 2 ^ (6/12)`. -/
theorem gap_interpolation_instance :
    (0 : ℝ) < 100 ∧ (0 : ℝ) < 200 ∧ 1 ≤ 12 ∧
    ((interpolateGapCpis 100 200 12).length = 12 - 1 ∧
      (∀ k, k ≤ 12 - 1 → interpSeq 100 200 12 k =
          100 * ((200 : ℝ) / 100) ^ ((k : ℝ) / (12 : ℝ))) ∧
      (∀ k, 1 ≤ k → k ≤ 12 - 1 →
          interpSeq 100 200 12 k / interpSeq 100 200 12 (k - 1) =
            monthlyGrowthRate 100 200 12) ∧
      (100 : ℝ) * monthlyGrowthRate 100 200 12 ^ 12 = 200) ∧
    monthlyGrowthRate 100 200 12 = (2 : ℝ) ^ ((1 : ℝ) / 12) :=
  ⟨by norm_num, by norm_num, by norm_num,
    gap_interpolation_geometric 100 200 12 (by norm_num) (by norm_num) (by norm_num),
    by norm_num [monthlyGrowthRate]⟩

/-! ### C8 -/

/-- C8 counterexample: with a non-positive start anchor (December 2016 CPI of
-100) the gap-fill interpolation does NOT fail: it produces its 11 records
(Python computes complex CPI values from the fractional power of a negative
number and raises nothing), contradicting the claimed DataIntegrity failure
for every `cpiStart <= 0`. -/
theorem interpolate_negative_anchor_succeeds :
    (-100 : ℚ) ≤ 0 ∧
    (interpolate_2017_months (-100) 120).isOk = true := by
  constructor
  · norm_num
  · rw [interpolate_2017_months, if_neg (by norm_num)]
    rfl

/-- C8 amended: the interpolation operation fails only when the start anchor
is exactly zero, and then with the `ZeroDivisionError` of the Python float
division, not a DataIntegrity error; for a negative start anchor it runs to
completion. -/
theorem interpolate_fails_iff_zero_start (a b : ℚ) :
    interpolate_2017_months a b = Except.error "ZeroDivisionError" ↔ a = 0 := by
  unfold interpolate_2017_months
  by_cases h : a = 0 <;> simp [h]

/-! ### C10 -/

/-- C10: for `GET /inflation/data`, a `limit` of 1000 or more (the default is
1000) applies no row cap at all — the result is the entire sorted year-filtered
query, and every matching record is in it regardless of how many there are;
the declared maximum 10000 only rejects larger parameter values (422) and
never bounds the result size; a `limit` below 1000 does cap the result at
`limit` rows. -/
theorem data_endpoint_limit_semantics (s : Store) (start_year : ℕ)
    (end_year : Option ℕ) (limit : ℕ) :
    (10000 < limit → get_inflation_data s start_year end_year limit = Except.error 422) ∧
    (1990 ≤ start_year → limit ≤ 10000 → 1000 ≤ limit →
      get_inflation_data s start_year end_year limit =
        (if (sortRowsByDate (queryRecords s start_year end_year)).isEmpty then Except.error 404
         else Except.ok (sortRowsByDate (queryRecords s start_year end_year)))) ∧
    (1990 ≤ start_year → limit ≤ 10000 → 1000 ≤ limit →
      ∀ L, get_inflation_data s start_year end_year limit = Except.ok L →
        ∀ r ∈ queryRecords s start_year end_year, r ∈ L) ∧
    (1990 ≤ start_year → limit ≤ 10000 → limit < 1000 →
      get_inflation_data s start_year end_year limit =
        (if ((sortRowsByDate (queryRecords s start_year end_year)).take limit).isEmpty
         then Except.error 404
         else Except.ok ((sortRowsByDate (queryRecords s start_year end_year)).take limit))) ∧
    (∀ L, get_inflation_data s start_year end_year limit = Except.ok L →
      limit < 1000 → L.length ≤ limit) := by
  refine ⟨?_, ?_, ?_, ?_, ?_⟩
  · intro h
    unfold get_inflation_data
    by_cases hs : start_year < 1990
    · rw [if_pos hs]
    · rw [if_neg hs, if_pos h]
  · intro h1 h2 h3
    unfold get_inflation_data
    rw [if_neg (by omega), if_neg (by omega), if_pos h3]
  · intro h1 h2 h3 L hL r hr
    unfold get_inflation_data at hL
    rw [if_neg (by omega), if_neg (by omega), if_pos h3] at hL
    by_cases he : (sortRowsByDate (queryRecords s start_year end_year)).isEmpty
    · rw [if_pos he] at hL; exact absurd hL (by simp)
    · rw [if_neg he] at hL
      have hLe : L = sortRowsByDate (queryRecords s start_year end_year) := by
        injection hL.symm
      rw [hLe]
      exact ((List.perm_insertionSort _ _).mem_iff).mpr hr
  · intro h1 h2 h3
    unfold get_inflation_data
    rw [if_neg (by omega), if_neg (by omega), if_neg (show ¬ 1000 ≤ limit by omega)]
  · intro L hL h3
    unfold get_inflation_data at hL
    by_cases hv1 : start_year < 1990
    · rw [if_pos hv1] at hL
      exact absurd hL (by simp)
    · by_cases hv2 : 10000 < limit
      · rw [if_neg hv1, if_pos hv2] at hL
        exact absurd hL (by simp)
      · rw [if_neg hv1, if_neg hv2, if_neg (show ¬ 1000 ≤ limit by omega)] at hL
        by_cases he : ((sortRowsByDate (queryRecords s start_year end_year)).take limit).isEmpty
        · rw [if_pos he] at hL; exact absurd hL (by simp)
        · rw [if_neg he] at hL
          have hLe : L = (sortRowsByDate (queryRecords s start_year end_year)).take limit := by
            injection hL.symm
          rw [hLe, List.length_take]
          omega

/-- C10 witness: on a concrete three-record store, the default limit 1000
returns all three records (no cap applied), while a limit of 2 caps the
result at two records. -/
theorem data_endpoint_limit_instance :
    get_inflation_data
        [⟨20200101, 2020, 1, 300, 0, 0, 0⟩, ⟨19950101, 1995, 1, 100, 0, 0, 0⟩,
         ⟨20000101, 2000, 1, 200, 0, 0, 0⟩] 1990 none 1000 =
      Except.ok [⟨19950101, 1995, 1, 100, 0, 0, 0⟩, ⟨20000101, 2000, 1, 200, 0, 0, 0⟩,
                 ⟨20200101, 2020, 1, 300, 0, 0, 0⟩] ∧
    get_inflation_data
        [⟨20200101, 2020, 1, 300, 0, 0, 0⟩, ⟨19950101, 1995, 1, 100, 0, 0, 0⟩,
         ⟨20000101, 2000, 1, 200, 0, 0, 0⟩] 1990 none 2 =
      Except.ok [⟨19950101, 1995, 1, 100, 0, 0, 0⟩, ⟨20000101, 2000, 1, 200, 0, 0, 0⟩] :=
  ⟨((data_endpoint_limit_semantics
      [⟨20200101, 2020, 1, 300, 0, 0, 0⟩, ⟨19950101, 1995, 1, 100, 0, 0, 0⟩,
       ⟨20000101, 2000, 1, 200, 0, 0, 0⟩] 1990 none 1000).2.1
      (by norm_num) (by norm_num) (by norm_num)).trans (by rfl),
   ((data_endpoint_limit_semantics
      [⟨20200101, 2020, 1, 300, 0, 0, 0⟩, ⟨19950101, 1995, 1, 100, 0, 0, 0⟩,
       ⟨20000101, 2000, 1, 200, 0, 0, 0⟩] 1990 none 2).2.2.2.1
      (by norm_num) (by norm_num) (by norm_num)).trans (by rfl)⟩

/-! ### C4 -/

/-- C4: on non-empty sources with positive join anchors, the merger rescales
every remote value by `adjustment_factor = lastHistoricalCpi / firstRecentCpi`;
afterwards the first adjusted remote value equals the last historical value
exactly (their ratio is 1), every pairwise ratio between remote observations
is unchanged by the rescaling, and the merger concatenates the historical
frame with exactly this rescaled remote frame. -/
theorem combine_rescaling (hist recent : List DataPoint)
    (hh : hist ≠ []) (hr : recent ≠ [])
    (hlast : 0 < lastCpi hist) (hfirst : 0 < firstCpi recent) :
    (∀ i, i < recent.length →
      ((adjustRecent hist recent).getD i default).cpi =
        (recent.getD i default).cpi * (lastCpi hist / firstCpi recent)) ∧
    firstCpi (adjustRecent hist recent) = lastCpi hist ∧
    lastCpi hist / firstCpi (adjustRecent hist recent) = 1 ∧
    (∀ i j, i < recent.length → j < recent.length →
      ((adjustRecent hist recent).getD i default).cpi /
          ((adjustRecent hist recent).getD j default).cpi =
        (recent.getD i default).cpi / (recent.getD j default).cpi) ∧
    combinedRaw hist recent = hist ++ adjustRecent hist recent := by
  have hfac : lastCpi hist / firstCpi recent ≠ 0 :=
    ne_of_gt (div_pos hlast hfirst)
  have hgetD : ∀ i, i < recent.length →
      ((adjustRecent hist recent).getD i default).cpi =
        (recent.getD i default).cpi * (lastCpi hist / firstCpi recent) := by
    intro i hi
    unfold adjustRecent adjustment_factor
    rw [List.getD_eq_getElem?_getD, List.getD_eq_getElem?_getD, List.getElem?_map,
        List.getElem?_eq_getElem hi]
    rfl
  refine ⟨hgetD, ?_, ?_, ?_, ?_⟩
  · cases recent with
    | nil => exact absurd rfl hr
    | cons p rest =>
      have hp : firstCpi (p :: rest) = p.cpi := rfl
      have hpne : p.cpi ≠ 0 := by rw [hp] at hfirst; exact ne_of_gt hfirst
      show p.cpi * adjustment_factor hist (p :: rest) = lastCpi hist
      unfold adjustment_factor
      rw [hp]
      field_simp
  · cases recent with
    | nil => exact absurd rfl hr
    | cons p rest =>
      have hp : firstCpi (p :: rest) = p.cpi := rfl
      have hpne : p.cpi ≠ 0 := by rw [hp] at hfirst; exact ne_of_gt hfirst
      show lastCpi hist / (p.cpi * adjustment_factor hist (p :: rest)) = 1
      unfold adjustment_factor
      rw [hp]
      rw [mul_div_cancel₀ _ hpne]
      exact div_self (ne_of_gt hlast)
  · intro i j hi hj
    rw [hgetD i hi, hgetD j hj, mul_div_mul_right _ _ hfac]
  · cases hist with
    | nil => exact absurd rfl hh
    | cons a as =>
      cases recent with
      | nil => exact absurd rfl hr
      | cons b bs => rfl

/-- C4 witness: a historical series ending at CPI 180 merged with a remote
series whose first reconstructed value is 90 rescales every remote value by
2.0 (the second remote value 99 becomes 198), and the join ratio is 1. -/
theorem combine_rescaling_instance :
    ([⟨20161201, 180⟩] : List DataPoint) ≠ [] ∧
    ([⟨20170101, 90⟩, ⟨20170201, 99⟩] : List DataPoint) ≠ [] ∧
    (0 : ℚ) < lastCpi [⟨20161201, 180⟩] ∧
    (0 : ℚ) < firstCpi [⟨20170101, 90⟩, ⟨20170201, 99⟩] ∧
    adjustment_factor [⟨20161201, 180⟩] [⟨20170101, 90⟩, ⟨20170201, 99⟩] = 2 ∧
    adjustRecent [⟨20161201, 180⟩] [⟨20170101, 90⟩, ⟨20170201, 99⟩] =
      [⟨20170101, 180⟩, ⟨20170201, 198⟩] ∧
    ((∀ i, i < ([⟨20170101, 90⟩, ⟨20170201, 99⟩] : List DataPoint).length →
        ((adjustRecent [⟨20161201, 180⟩] [⟨20170101, 90⟩, ⟨20170201, 99⟩]).getD i default).cpi =
          (([⟨20170101, 90⟩, ⟨20170201, 99⟩] : List DataPoint).getD i default).cpi *
            (lastCpi [⟨20161201, 180⟩] / firstCpi [⟨20170101, 90⟩, ⟨20170201, 99⟩])) ∧
      firstCpi (adjustRecent [⟨20161201, 180⟩] [⟨20170101, 90⟩, ⟨20170201, 99⟩]) =
        lastCpi [⟨20161201, 180⟩] ∧
      lastCpi [⟨20161201, 180⟩] /
          firstCpi (adjustRecent [⟨20161201, 180⟩] [⟨20170101, 90⟩, ⟨20170201, 99⟩]) = 1 ∧
      (∀ i j, i < ([⟨20170101, 90⟩, ⟨20170201, 99⟩] : List DataPoint).length →
        j < ([⟨20170101, 90⟩, ⟨20170201, 99⟩] : List DataPoint).length →
        ((adjustRecent [⟨20161201, 180⟩] [⟨20170101, 90⟩, ⟨20170201, 99⟩]).getD i default).cpi /
            ((adjustRecent [⟨20161201, 180⟩] [⟨20170101, 90⟩, ⟨20170201, 99⟩]).getD j default).cpi =
          (([⟨20170101, 90⟩, ⟨20170201, 99⟩] : List DataPoint).getD i default).cpi /
            (([⟨20170101, 90⟩, ⟨20170201, 99⟩] : List DataPoint).getD j default).cpi) ∧
      combinedRaw [⟨20161201, 180⟩] [⟨20170101, 90⟩, ⟨20170201, 99⟩] =
        [⟨20161201, 180⟩] ++ adjustRecent [⟨20161201, 180⟩] [⟨20170101, 90⟩, ⟨20170201, 99⟩]) :=
  ⟨by decide, by decide, by norm_num [lastCpi], by norm_num [firstCpi],
    by norm_num [adjustment_factor, lastCpi, firstCpi],
    by norm_num [adjustRecent, adjustment_factor, lastCpi, firstCpi],
    combine_rescaling [⟨20161201, 180⟩] [⟨20170101, 90⟩, ⟨20170201, 99⟩]
      (by decide) (by decide) (by norm_num [lastCpi]) (by norm_num [firstCpi])⟩

/-! ### C6 -/

/-- C6: the rates the merger attaches are recomputed from the merged (sorted)
CPI sequence alone — `calculate_inflation_rates` reads nothing but the `cpi`
column: position `i` carries monthly rate `(cpi[i]/cpi[i-1] - 1) * 100` for
`i >= 1` (default 0 at `i = 0`) and annual rate `(cpi[i]/cpi[i-12] - 1) * 100`
for `i >= 12` (default 0 below). -/
theorem rates_recomputed_from_cpi (df : List DataPoint)
    (hpos : ∀ p ∈ df, 0 < p.cpi) (i : ℕ) (hi : i < (sortByDate df).length) :
    ((calculate_inflation_rates df).getD i ⟨0, 0, 0, 0⟩).monthly_rate =
      (if 1 ≤ i then
        (((sortByDate df).map (fun p => p.cpi)).getD i 0 /
            ((sortByDate df).map (fun p => p.cpi)).getD (i - 1) 0 - 1) * 100
       else 0) ∧
    ((calculate_inflation_rates df).getD i ⟨0, 0, 0, 0⟩).annual_rate =
      (if 12 ≤ i then
        (((sortByDate df).map (fun p => p.cpi)).getD i 0 /
            ((sortByDate df).map (fun p => p.cpi)).getD (i - 12) 0 - 1) * 100
       else 0) := by
  have hsortpos : ∀ p ∈ sortByDate df, 0 < p.cpi := by
    intro p hp
    exact hpos p (((List.perm_insertionSort _ df).mem_iff).mp hp)
  have hcpis : ∀ j, ∀ hj : j < (sortByDate df).length,
      ((sortByDate df).map (fun p => p.cpi)).getD j 0 = ((sortByDate df).get ⟨j, hj⟩).cpi := by
    intro j hj
    rw [List.getD_eq_getElem?_getD, List.getElem?_map, List.getElem?_eq_getElem hj]
    simp [List.get_eq_getElem]
  have hcpipos : ∀ j, j < (sortByDate df).length →
      0 < ((sortByDate df).map (fun p => p.cpi)).getD j 0 := by
    intro j hj
    rw [hcpis j hj]
    exact hsortpos _ (List.get_mem _ _ _)
  have hrow : (calculate_inflation_rates df).getD i ⟨0, 0, 0, 0⟩ =
      { date := ((sortByDate df).get ⟨i, hi⟩).date
        cpi := ((sortByDate df).get ⟨i, hi⟩).cpi
        monthly_rate := pctChangeRate ((sortByDate df).map (fun p => p.cpi)) 1 i
        annual_rate := pctChangeRate ((sortByDate df).map (fun p => p.cpi)) 12 i } := by
    unfold calculate_inflation_rates
    have hlen : i < (sortByDate df).enum.length := by
      rw [List.enum_length]; exact hi
    rw [List.getD_eq_getElem?_getD, List.getElem?_map, List.getElem?_eq_getElem hlen]
    simp [List.getElem_enum, List.get_eq_getElem]
  have hratio : ∀ p, p ≤ i →
      pctChangeRate ((sortByDate df).map (fun p => p.cpi)) p i =
        (((sortByDate df).map (fun q => q.cpi)).getD i 0 /
            ((sortByDate df).map (fun q => q.cpi)).getD (i - p) 0 - 1) * 100 := by
    intro p hp
    unfold pctChangeRate
    rw [if_pos hp]
    have hb : ((sortByDate df).map (fun q => q.cpi)).getD (i - p) 0 ≠ 0 :=
      ne_of_gt (hcpipos (i - p) (by omega))
    rw [sub_div, div_self hb]
  constructor
  · rw [hrow]
    show pctChangeRate ((sortByDate df).map (fun p => p.cpi)) 1 i = _
    by_cases h1 : 1 ≤ i
    · rw [if_pos h1, hratio 1 h1]
    · rw [if_neg h1]
      unfold pctChangeRate
      rw [if_neg h1]
  · rw [hrow]
    show pctChangeRate ((sortByDate df).map (fun p => p.cpi)) 12 i = _
    by_cases h12 : 12 ≤ i
    · rw [if_pos h12, hratio 12 h12]
    · rw [if_neg h12]
      unfold pctChangeRate
      rw [if_neg h12]

/-- C6 witness: on the two-point frame (February 110, January 100) — stored
out of order to exercise the sort — position 1 carries monthly rate
`(110/100 - 1) * 100 = 10` and annual rate 0. -/
theorem rates_recomputed_instance :
    (∀ p ∈ ([⟨20200201, 110⟩, ⟨20200101, 100⟩] : List DataPoint), 0 < p.cpi) ∧
    1 < (sortByDate [⟨20200201, 110⟩, ⟨20200101, 100⟩]).length ∧
    (((calculate_inflation_rates [⟨20200201, 110⟩, ⟨20200101, 100⟩]).getD 1
        ⟨0, 0, 0, 0⟩).monthly_rate =
      (if 1 ≤ 1 then
        (((sortByDate [⟨20200201, 110⟩, ⟨20200101, 100⟩]).map (fun p => p.cpi)).getD 1 0 /
            ((sortByDate [⟨20200201, 110⟩, ⟨20200101, 100⟩]).map (fun p => p.cpi)).getD 0 0
          - 1) * 100
       else 0) ∧
      ((calculate_inflation_rates [⟨20200201, 110⟩, ⟨20200101, 100⟩]).getD 1
        ⟨0, 0, 0, 0⟩).annual_rate =
      (if 12 ≤ 1 then
        (((sortByDate [⟨20200201, 110⟩, ⟨20200101, 100⟩]).map (fun p => p.cpi)).getD 1 0 /
            ((sortByDate [⟨20200201, 110⟩, ⟨20200101, 100⟩]).map (fun p => p.cpi)).getD
              (1 - 12) 0 - 1) * 100
       else 0)) ∧
    ((calculate_inflation_rates [⟨20200201, 110⟩, ⟨20200101, 100⟩]).getD 1
        ⟨0, 0, 0, 0⟩).monthly_rate = 10 :=
  ⟨by decide, by decide,
    rates_recomputed_from_cpi [⟨20200201, 110⟩, ⟨20200101, 100⟩] (by decide) 1 (by decide),
    by norm_num [calculate_inflation_rates, sortByDate, List.insertionSort,
      List.orderedInsert, pctChangeRate, List.enum, List.enumFrom]⟩

/-! ### C3 -/

/-- C3 (code bug): the `/inflation/range` endpoint does not delegate to the
CPI ratio arithmetic at all — it returns the hardcoded sample value 234.5
for every pair of dates and ignores the store.  At the failing input
`start_date = end_date` (a store holding CPI 100 for January 2020), the
CPI-ratio arithmetic of `convert` yields 0 percent, yet the endpoint
reports 234.5 percent, and its multiplier is the constant 3.345 rather than
the CPI ratio 1. -/
theorem inflation_range_stub_diverges :
    (∀ d1 d2 : ℕ, (get_inflation_range d1 d2).total_inflation_percent = 234.5 ∧
        (get_inflation_range d1 d2).multiplier = 1 + 234.5 / 100) ∧
    get_cpi_for_date [⟨20200101, 2020, 1, 100, 0, 0, 0⟩] 20200115 = some 100 ∧
    ((100 : ℚ) / 100 - 1) * 100 = 0 ∧
    (get_inflation_range 20200115 20200115).total_inflation_percent ≠ 0 ∧
    (get_inflation_range 20200115 20200115).multiplier ≠ (100 : ℚ) / 100 := by
  refine ⟨fun d1 d2 => ⟨rfl, rfl⟩, by decide, by norm_num, ?_, ?_⟩
  · show (234.5 : ℚ) ≠ 0
    norm_num
  · show (1 + 234.5 / 100 : ℚ) ≠ 100 / 100
    norm_num

/-! ### C7: helper lemmas -/

lemma dedupKeepLast_cons_pos (x : DataPoint) (rest : List DataPoint)
    (h : rest.any (fun y => y.date == x.date) = true) :
    dedupKeepLast (x :: rest) = dedupKeepLast rest := by
  simp only [dedupKeepLast, h, if_true]

lemma dedupKeepLast_cons_neg (x : DataPoint) (rest : List DataPoint)
    (h : ¬ rest.any (fun y => y.date == x.date) = true) :
    dedupKeepLast (x :: rest) = x :: dedupKeepLast rest := by
  simp only [dedupKeepLast, h, if_false, Bool.false_eq_true, ite_false]

lemma mem_date_dedupKeepLast (l : List DataPoint) (d : ℕ) :
    (∃ p ∈ dedupKeepLast l, p.date = d) ↔ (∃ p ∈ l, p.date = d) := by
  induction l with
  | nil => simp [dedupKeepLast]
  | cons x rest ih =>
    by_cases hany : rest.any (fun y => y.date == x.date) = true
    · rw [dedupKeepLast_cons_pos x rest hany, ih]
      constructor
      · rintro ⟨p, hp, hpd⟩
        exact ⟨p, List.mem_cons_of_mem _ hp, hpd⟩
      · rintro ⟨p, hp, hpd⟩
        rcases List.mem_cons.mp hp with h1 | h1
        · subst h1
          obtain ⟨y, hy, hyd⟩ := List.any_eq_true.mp hany
          have hyx : y.date = p.date := by simpa using hyd
          exact ⟨y, hy, hyx.trans hpd⟩
        · exact ⟨p, h1, hpd⟩
    · rw [dedupKeepLast_cons_neg x rest hany]
      constructor
      · rintro ⟨p, hp, hpd⟩
        rcases List.mem_cons.mp hp with h1 | h1
        · exact ⟨x, List.mem_cons_self _ _, h1 ▸ hpd⟩
        · obtain ⟨q, hq, hqd⟩ := ih.mp ⟨p, h1, hpd⟩
          exact ⟨q, List.mem_cons_of_mem _ hq, hqd⟩
      · rintro ⟨p, hp, hpd⟩
        rcases List.mem_cons.mp hp with h1 | h1
        · exact ⟨x, List.mem_cons_self _ _, h1 ▸ hpd⟩
        · obtain ⟨q, hq, hqd⟩ := ih.mpr ⟨p, h1, hpd⟩
          exact ⟨q, List.mem_cons_of_mem _ hq, hqd⟩

lemma mem_date_sortByDate (l : List DataPoint) (d : ℕ) :
    (∃ p ∈ sortByDate l, p.date = d) ↔ (∃ p ∈ l, p.date = d) := by
  unfold sortByDate
  constructor
  · rintro ⟨p, hp, hpd⟩
    exact ⟨p, ((List.perm_insertionSort _ l).mem_iff).mp hp, hpd⟩
  · rintro ⟨p, hp, hpd⟩
    exact ⟨p, ((List.perm_insertionSort _ l).mem_iff).mpr hp, hpd⟩

lemma mem_date_calcRates (df : List DataPoint) (d : ℕ) :
    (∃ r ∈ calculate_inflation_rates df, r.date = d) ↔ (∃ p ∈ df, p.date = d) := by
  rw [← mem_date_sortByDate df d]
  unfold calculate_inflation_rates
  constructor
  · rintro ⟨r, hr, hrd⟩
    obtain ⟨ip, hip, hipr⟩ := List.mem_map.mp hr
    refine ⟨ip.2, ?_, ?_⟩
    · have : ip.2 ∈ (sortByDate df).enum.map Prod.snd := List.mem_map_of_mem _ hip
      rwa [List.enum_map_snd] at this
    · rw [← hipr] at hrd
      exact hrd
  · rintro ⟨p, hp, hpd⟩
    have hp2 : p ∈ (sortByDate df).enum.map Prod.snd := by
      rwa [List.enum_map_snd]
    obtain ⟨ip, hip, hipp⟩ := List.mem_map.mp hp2
    refine ⟨_, List.mem_map_of_mem _ hip, ?_⟩
    show ip.2.date = d
    rw [hipp, hpd]

lemma mem_date_combine (hist recent : List DataPoint) (sy d : ℕ) :
    (∃ p ∈ combine_data_sources hist recent sy, p.date = d) ↔
      ((∃ p ∈ combinedRaw hist recent, p.date = d) ∧ sy ≤ yearOf d) := by
  unfold combine_data_sources
  by_cases hbe : (hist.isEmpty && recent.isEmpty) = true
  · rw [if_pos hbe]
    simp only [Bool.and_eq_true, List.isEmpty_iff] at hbe
    have hraw : combinedRaw hist recent = [] := by
      unfold combinedRaw
      rw [hbe.1, hbe.2]
      rfl
    simp [hraw]
  · rw [if_neg hbe]
    rw [mem_date_dedupKeepLast, mem_date_sortByDate]
    constructor
    · rintro ⟨p, hp, hpd⟩
      obtain ⟨hpm, hpf⟩ := List.mem_filter.mp hp
      refine ⟨⟨p, hpm, hpd⟩, ?_⟩
      rw [← hpd]
      exact of_decide_eq_true hpf
    · rintro ⟨⟨p, hp, hpd⟩, hy⟩
      refine ⟨p, List.mem_filter.mpr ⟨hp, ?_⟩, hpd⟩
      rw [decide_eq_true_iff, hpd]
      exact hy

lemma mem_date_gpd (hist recent : List DataPoint) (sy d : ℕ) :
    (∃ r ∈ get_processed_data hist recent sy, r.date = d) ↔
      ((∃ p ∈ combinedRaw hist recent, p.date = d) ∧ sy ≤ yearOf d) := by
  rw [← mem_date_combine hist recent sy d]
  unfold get_processed_data
  by_cases hde : (combine_data_sources hist recent sy).isEmpty = true
  · rw [if_pos hde]
    rw [List.isEmpty_iff] at hde
    simp [hde]
  · rw [if_neg hde]
    rw [← mem_date_calcRates]
    constructor
    · rintro ⟨r, hr, hrd⟩
      obtain ⟨q, hq, hqr⟩ := List.mem_map.mp hr
      exact ⟨q, hq, by rw [← hrd, ← hqr]⟩
    · rintro ⟨q, hq, hqd⟩
      exact ⟨_, List.mem_map_of_mem _ hq, hqd⟩

lemma yearOf_mono {a b : ℕ} (h : a ≤ b) : yearOf a ≤ yearOf b :=
  Nat.div_le_div_right h

lemma startYearFor_mono {a b : ℕ} (h : a ≤ b) : startYearFor a ≤ startYearFor b := by
  unfold startYearFor
  have := yearOf_mono h
  by_cases ha : 2017 ≤ yearOf a <;> by_cases hb : 2017 ≤ yearOf b <;>
    simp [ha, hb] <;> omega

lemma saveStep_length (now : ℕ) (s acc : Store) (r : SrcRecord) :
    acc.length ≤ (saveStep now s acc r).length := by
  unfold saveStep
  by_cases h : s.any (fun x => x.date == r.date) = true
  · rw [if_pos h, List.length_map]
  · rw [if_neg h, List.length_append]
    omega

lemma foldl_saveStep_length (now : ℕ) (s : Store) :
    ∀ (rs : List SrcRecord) (acc : Store),
      acc.length ≤ (rs.foldl (saveStep now s) acc).length := by
  intro rs
  induction rs with
  | nil => intro acc; exact le_refl _
  | cons r rs ih =>
    intro acc
    rw [List.foldl_cons]
    exact le_trans (saveStep_length now s acc r) (ih _)

lemma save_inflation_data_ne_nil (now : ℕ) (records : List SrcRecord)
    (h : records ≠ []) : save_inflation_data now [] records ≠ [] := by
  cases records with
  | nil => exact absurd rfl h
  | cons r rs =>
    unfold save_inflation_data
    rw [List.foldl_cons]
    have h1 : saveStep now [] [] r = [r.toRow now] := by
      unfold saveStep
      rfl
    intro hcontra
    rw [h1] at hcontra
    have hlen := foldl_saveStep_length now [] rs [r.toRow now]
    rw [hcontra] at hlen
    simp at hlen

lemma hardStep_snd_append (today now : ℕ) (s : Store) (latest : InflationRecord)
    (st : ℚ × Store) (h : HardRecord) :
    ∃ u, (hardStep today now s latest st h).2 = st.2 ++ u := by
  unfold hardStep
  by_cases h1 : latest.date < firstOfMonth h.year h.month ∧
      firstOfMonth h.year h.month ≤ today
  · by_cases h2 : s.any (fun x => x.date == firstOfMonth h.year h.month) = true
    · exact ⟨[], by rw [if_pos h1, if_pos h2]; simp⟩
    · exact ⟨_, by rw [if_pos h1, if_neg h2]⟩
  · exact ⟨[], by rw [if_neg h1]; simp⟩

lemma hardFold_snd_append (today now : ℕ) (s : Store) (latest : InflationRecord) :
    ∀ (hard : List HardRecord) (st : ℚ × Store),
      ∃ u, (hard.foldl (hardStep today now s latest) st).2 = st.2 ++ u := by
  intro hard
  induction hard with
  | nil => intro st; exact ⟨[], by simp⟩
  | cons h hs ih =>
    intro st
    rw [List.foldl_cons]
    obtain ⟨u1, hu1⟩ := hardStep_snd_append today now s latest st h
    obtain ⟨u2, hu2⟩ := ih (hardStep today now s latest st h)
    exact ⟨u1 ++ u2, by rw [hu2, hu1, List.append_assoc]⟩

lemma hardPhase_append (hard : List HardRecord) (today now : ℕ) (s : Store)
    (latest : InflationRecord) :
    ∃ u, hardPhase hard today now s latest = s ++ u := by
  unfold hardPhase
  exact hardFold_snd_append today now s latest hard (latest.cpi_index, s)

lemma hardFold_covers (today now : ℕ) (s : Store) (latest : InflationRecord) :
    ∀ (hard : List HardRecord) (st : ℚ × Store), (∀ x ∈ s, x ∈ st.2) →
      ∀ h ∈ hard, latest.date < firstOfMonth h.year h.month →
        firstOfMonth h.year h.month ≤ today →
        ∃ x ∈ (hard.foldl (hardStep today now s latest) st).2,
          x.date = firstOfMonth h.year h.month := by
  intro hard
  induction hard with
  | nil => intro st hsub h hmem; simp at hmem
  | cons h0 hs ih =>
    intro st hsub h hmem hc1 hc2
    rw [List.foldl_cons]
    rcases List.mem_cons.mp hmem with heq | htail
    · subst heq
      have hstep : ∃ x ∈ (hardStep today now s latest st h).2,
          x.date = firstOfMonth h.year h.month := by
        unfold hardStep
        rw [if_pos ⟨hc1, hc2⟩]
        by_cases h2 : s.any (fun x => x.date == firstOfMonth h.year h.month) = true
        · rw [if_pos h2]
          obtain ⟨x, hx, hxd⟩ := List.any_eq_true.mp h2
          exact ⟨x, hsub x hx, by simpa using hxd⟩
        · rw [if_neg h2]
          refine ⟨_, List.mem_append_right _ (List.mem_singleton_self _), rfl⟩
      obtain ⟨x, hx, hxd⟩ := hstep
      obtain ⟨u, hu⟩ := hardFold_snd_append today now s latest hs
        (hardStep today now s latest st h)
      exact ⟨x, hu ▸ List.mem_append_left u hx, hxd⟩
    · refine ih (hardStep today now s latest st h0) ?_ h htail hc1 hc2
      intro x hx
      obtain ⟨u, hu⟩ := hardStep_snd_append today now s latest st h0
      exact hu ▸ List.mem_append_left u (hsub x hx)

lemma hardPhase_covers (hard : List HardRecord) (today now : ℕ) (s : Store)
    (latest : InflationRecord) (h : HardRecord) (hmem : h ∈ hard)
    (hc1 : latest.date < firstOfMonth h.year h.month)
    (hc2 : firstOfMonth h.year h.month ≤ today) :
    ∃ x ∈ hardPhase hard today now s latest,
      x.date = firstOfMonth h.year h.month := by
  unfold hardPhase
  exact hardFold_covers today now s latest hard (latest.cpi_index, s)
    (fun x hx => hx) h hmem hc1 hc2

lemma hardFold_noop (today now : ℕ) (s : Store) (latest : InflationRecord) :
    ∀ (hard : List HardRecord) (st : ℚ × Store),
      (∀ h ∈ hard, ¬(latest.date < firstOfMonth h.year h.month ∧
        firstOfMonth h.year h.month ≤ today)) →
      hard.foldl (hardStep today now s latest) st = st := by
  intro hard
  induction hard with
  | nil => intro st hall; rfl
  | cons h hs ih =>
    intro st hall
    rw [List.foldl_cons]
    have hstep : hardStep today now s latest st h = st := by
      unfold hardStep
      rw [if_neg (hall h (List.mem_cons_self _ _))]
    rw [hstep]
    exact ih st (fun h2 hmem => hall h2 (List.mem_cons_of_mem _ hmem))

lemma hardPhase_noop (hard : List HardRecord) (today now : ℕ) (s : Store)
    (latest : InflationRecord)
    (hall : ∀ h ∈ hard, ¬(latest.date < firstOfMonth h.year h.month ∧
      firstOfMonth h.year h.month ≤ today)) :
    hardPhase hard today now s latest = s := by
  unfold hardPhase
  rw [hardFold_noop today now s latest hard _ hall]

lemma fredPhase_fst_append (hist recent : List DataPoint) (now : ℕ) (s : Store)
    (latest : InflationRecord) :
    ∃ u, (fredPhase hist recent now s latest).1 = s ++ u := by
  unfold fredPhase
  by_cases h1 : (get_processed_data hist recent (startYearFor latest.date)).isEmpty = true
  · exact ⟨[], by rw [if_pos h1]; simp⟩
  · by_cases h2 : (fredNewRecords hist recent latest).isEmpty = true
    · exact ⟨[], by rw [if_neg h1, if_pos h2]; simp⟩
    · exact ⟨((fredNewRecords hist recent latest).filter
          (fun r => !s.any (fun x => x.date == r.date))).map (fun r => r.toRow now),
        by rw [if_neg h1, if_neg h2]; rfl⟩

lemma fredPhase_snd_getLatest (hist recent : List DataPoint) (now : ℕ) (s : Store)
    (latest : InflationRecord) (hlat : getLatest s = some latest) :
    getLatest (fredPhase hist recent now s latest).1 =
      some (fredPhase hist recent now s latest).2 := by
  have hsne : s ≠ [] := by
    intro hc
    rw [hc] at hlat
    simp [getLatest] at hlat
  unfold fredPhase
  by_cases h1 : (get_processed_data hist recent (startYearFor latest.date)).isEmpty = true
  · rw [if_pos h1]
    exact hlat
  · by_cases h2 : (fredNewRecords hist recent latest).isEmpty = true
    · rw [if_neg h1, if_pos h2]
      exact hlat
    · rw [if_neg h1, if_neg h2]
      have hne : fredInsert now s (fredNewRecords hist recent latest) ≠ [] := by
        unfold fredInsert
        intro hc
        exact hsne (List.append_eq_nil.mp hc).1
      cases hg : getLatest (fredInsert now s (fredNewRecords hist recent latest)) with
      | none => exact absurd ((getLatest_eq_none_iff _).mp hg) hne
      | some l => simp [hg]

lemma fredPhase_snd_mem (hist recent : List DataPoint) (now : ℕ) (s : Store)
    (latest : InflationRecord) (hlat : getLatest s = some latest) :
    (fredPhase hist recent now s latest).2 ∈ (fredPhase hist recent now s latest).1 :=
  getLatest_mem (fredPhase_snd_getLatest hist recent now s latest hlat)

lemma fredPhase_latest_le (hist recent : List DataPoint) (now : ℕ) (s : Store)
    (latest : InflationRecord) (hlat : getLatest s = some latest) :
    latest.date ≤ (fredPhase hist recent now s latest).2.date := by
  obtain ⟨u, hu⟩ := fredPhase_fst_append hist recent now s latest
  exact getLatest_max (fredPhase_snd_getLatest hist recent now s latest hlat) latest
    (hu ▸ List.mem_append_left u (getLatest_mem hlat))

lemma fredPhase_post (hist recent : List DataPoint) (now : ℕ) (s : Store)
    (latest : InflationRecord) (hlat : getLatest s = some latest) :
    ∀ q ∈ combinedRaw hist recent, startYearFor latest.date ≤ yearOf q.date →
      q.date ≤ (fredPhase hist recent now s latest).2.date := by
  intro q hq hy
  by_cases hle : q.date ≤ latest.date
  · exact le_trans hle (fredPhase_latest_le hist recent now s latest hlat)
  · push_neg at hle
    obtain ⟨r, hr, hrd⟩ := (mem_date_gpd hist recent (startYearFor latest.date) q.date).mpr
      ⟨⟨q, hq, rfl⟩, hy⟩
    have hrnew : r ∈ fredNewRecords hist recent latest :=
      List.mem_filter.mpr ⟨hr, by rw [decide_eq_true_iff, hrd]; exact hle⟩
    have h1 : ¬ (get_processed_data hist recent (startYearFor latest.date)).isEmpty = true := by
      rw [List.isEmpty_iff]
      exact List.ne_nil_of_mem hr
    have h2 : ¬ (fredNewRecords hist recent latest).isEmpty = true := by
      rw [List.isEmpty_iff]
      exact List.ne_nil_of_mem hrnew
    have hnotany : s.any (fun x => x.date == r.date) = false := by
      rw [List.any_eq_false]
      intro x hx
      have hxle : x.date ≤ latest.date := getLatest_max hlat x hx
      simp only [beq_iff_eq]
      intro hxd
      rw [hxd, hrd] at hxle
      omega
    have hrow : r.toRow now ∈ (fredPhase hist recent now s latest).1 := by
      unfold fredPhase
      rw [if_neg h1, if_neg h2]
      show r.toRow now ∈ fredInsert now s (fredNewRecords hist recent latest)
      unfold fredInsert
      refine List.mem_append_right _ (List.mem_map_of_mem _ ?_)
      exact List.mem_filter.mpr ⟨hrnew, by rw [hnotany]; rfl⟩
    have hmax := getLatest_max (fredPhase_snd_getLatest hist recent now s latest hlat)
      (r.toRow now) hrow
    have : (SrcRecord.toRow r now).date = q.date := hrd
    rw [this] at hmax
    exact hmax

lemma refreshFrom_none (hist recent : List DataPoint) (today now : ℕ) (s1 : Store)
    (h : getLatest s1 = none) : refreshFrom hist recent today now s1 = s1 := by
  unfold refreshFrom
  rw [h]

lemma refreshFrom_some (hist recent : List DataPoint) (today now : ℕ) (s1 : Store)
    (latest : InflationRecord) (h : getLatest s1 = some latest) :
    refreshFrom hist recent today now s1 =
      (if 0 < monthsDiff today latest.date then
        (if 0 < monthsDiff today (fredPhase hist recent now s1 latest).2.date then
          hardPhase very_recent_data today now
            (fredPhase hist recent now s1 latest).1
            (fredPhase hist recent now s1 latest).2
        else (fredPhase hist recent now s1 latest).1)
      else s1) := by
  unfold refreshFrom
  rw [h]

lemma refreshFrom_append (hist recent : List DataPoint) (today now : ℕ) (s1 : Store) :
    ∃ u, refreshFrom hist recent today now s1 = s1 ++ u := by
  cases hlat : getLatest s1 with
  | none => exact ⟨[], by rw [refreshFrom_none hist recent today now s1 hlat]; simp⟩
  | some latest =>
    rw [refreshFrom_some hist recent today now s1 latest hlat]
    by_cases hmd1 : 0 < monthsDiff today latest.date
    · rw [if_pos hmd1]
      obtain ⟨u1, hu1⟩ := fredPhase_fst_append hist recent now s1 latest
      by_cases hmd2 : 0 < monthsDiff today (fredPhase hist recent now s1 latest).2.date
      · rw [if_pos hmd2]
        obtain ⟨u2, hu2⟩ := hardPhase_append very_recent_data today now
          (fredPhase hist recent now s1 latest).1 (fredPhase hist recent now s1 latest).2
        exact ⟨u1 ++ u2, by rw [hu2, hu1, List.append_assoc]⟩
      · rw [if_neg hmd2]
        exact ⟨u1, hu1⟩
    · rw [if_neg hmd1]
      exact ⟨[], by simp⟩

lemma refreshFrom_post (hist recent : List DataPoint) (today now : ℕ) (s1 : Store)
    (L : InflationRecord)
    (hL : getLatest (refreshFrom hist recent today now s1) = some L)
    (hmd : 0 < monthsDiff today L.date) :
    (∀ q ∈ combinedRaw hist recent, startYearFor L.date ≤ yearOf q.date →
      q.date ≤ L.date) ∧
    (∀ h ∈ very_recent_data, firstOfMonth h.year h.month ≤ today →
      firstOfMonth h.year h.month ≤ L.date) := by
  cases hlat : getLatest s1 with
  | none =>
    rw [refreshFrom_none hist recent today now s1 hlat, hlat] at hL
    exact absurd hL (by simp)
  | some latest =>
    rw [refreshFrom_some hist recent today now s1 latest hlat] at hL
    by_cases hmd1 : 0 < monthsDiff today latest.date
    · rw [if_pos hmd1] at hL
      by_cases hmd2 : 0 < monthsDiff today (fredPhase hist recent now s1 latest).2.date
      · rw [if_pos hmd2] at hL
        obtain ⟨u, hu⟩ := hardPhase_append very_recent_data today now
          (fredPhase hist recent now s1 latest).1 (fredPhase hist recent now s1 latest).2
        have hp2mem : (fredPhase hist recent now s1 latest).2 ∈
            (fredPhase hist recent now s1 latest).1 :=
          fredPhase_snd_mem hist recent now s1 latest hlat
        have hp2L : (fredPhase hist recent now s1 latest).2.date ≤ L.date :=
          getLatest_max hL _ (hu ▸ List.mem_append_left u hp2mem)
        have hlatL : latest.date ≤ L.date :=
          le_trans (fredPhase_latest_le hist recent now s1 latest hlat) hp2L
        constructor
        · intro q hq hy
          have hy1 : startYearFor latest.date ≤ yearOf q.date :=
            le_trans (startYearFor_mono hlatL) hy
          exact le_trans (fredPhase_post hist recent now s1 latest hlat q hq hy1) hp2L
        · intro h hmem hle
          by_cases hlt : (fredPhase hist recent now s1 latest).2.date <
              firstOfMonth h.year h.month
          · obtain ⟨x, hx, hxd⟩ := hardPhase_covers very_recent_data today now
              (fredPhase hist recent now s1 latest).1
              (fredPhase hist recent now s1 latest).2 h hmem hlt hle
            have := getLatest_max hL x hx
            omega
          · push_neg at hlt
            exact le_trans hlt hp2L
      · rw [if_neg hmd2] at hL
        have hsnd := fredPhase_snd_getLatest hist recent now s1 latest hlat
        rw [hL] at hsnd
        have hLe : L = (fredPhase hist recent now s1 latest).2 := by
          injection hsnd
        rw [← hLe] at hmd2
        exact absurd hmd hmd2
    · rw [if_neg hmd1] at hL
      rw [hlat] at hL
      have hLe : latest = L := by injection hL
      rw [hLe] at hmd1
      exact absurd hmd hmd1

lemma refreshFrom_fix (hist recent : List DataPoint) (today now : ℕ) (s1 : Store)
    (L : InflationRecord) (hL : getLatest s1 = some L)
    (hpost : 0 < monthsDiff today L.date →
      (∀ q ∈ combinedRaw hist recent, startYearFor L.date ≤ yearOf q.date →
        q.date ≤ L.date) ∧
      (∀ h ∈ very_recent_data, firstOfMonth h.year h.month ≤ today →
        firstOfMonth h.year h.month ≤ L.date)) :
    refreshFrom hist recent today now s1 = s1 := by
  rw [refreshFrom_some hist recent today now s1 L hL]
  by_cases hmd : 0 < monthsDiff today L.date
  · obtain ⟨ha, hb⟩ := hpost hmd
    have hfred : fredPhase hist recent now s1 L = (s1, L) := by
      unfold fredPhase
      by_cases h1 : (get_processed_data hist recent (startYearFor L.date)).isEmpty = true
      · rw [if_pos h1]
      · rw [if_neg h1]
        have h2 : (fredNewRecords hist recent L).isEmpty = true := by
          rw [List.isEmpty_iff]
          unfold fredNewRecords
          rw [List.filter_eq_nil_iff]
          intro r hr
          rw [decide_eq_true_iff]
          obtain ⟨⟨q, hq, hqd⟩, hy⟩ :=
            (mem_date_gpd hist recent (startYearFor L.date) r.date).mp ⟨r, hr, rfl⟩
          have := ha q hq (hqd ▸ hy)
          omega
        rw [if_pos h2]
    rw [if_pos hmd, hfred]
    show (if 0 < monthsDiff today L.date then
        hardPhase very_recent_data today now s1 L else s1) = s1
    rw [if_pos hmd]
    refine hardPhase_noop very_recent_data today now s1 L ?_
    rintro h hmem ⟨hc1, hc2⟩
    have := hb h hmem hc2
    omega
  · rw [if_neg hmd]

/-! ### C7 -/

/-- C7: running the startup refresh cycle twice in succession with the same
source data and the same `today` is idempotent — the second run returns the
store of the first run unchanged, byte for byte (even with a different write
timestamp `now2`, since the second run performs no insert and no update, so
no row is added, no duplicate month appears, and no `updated_at` changes). -/
theorem refresh_cycle_idempotent (hist recent : List DataPoint)
    (today now1 now2 : ℕ) (s : Store) :
    startup_event hist recent today now2 (startup_event hist recent today now1 s) =
      startup_event hist recent today now1 s := by
  cases hlt : getLatest (startup_event hist recent today now1 s) with
  | none =>
    have htnil : startup_event hist recent today now1 s = [] :=
      (getLatest_eq_none_iff _).mp hlt
    have hgpd : get_processed_data hist recent 1995 = [] := by
      by_contra hne
      have hpop : populateIfEmpty hist recent now1 s ≠ [] := by
        unfold populateIfEmpty
        by_cases hs : s.isEmpty = true
        · rw [if_pos hs, if_neg (by rw [List.isEmpty_iff]; exact hne)]
          rw [List.isEmpty_iff.mp hs]
          exact save_inflation_data_ne_nil now1 _ hne
        · rw [if_neg hs]
          intro hc
          exact hs (by rw [hc]; rfl)
      obtain ⟨u, hu⟩ := refreshFrom_append hist recent today now1
        (populateIfEmpty hist recent now1 s)
      have : startup_event hist recent today now1 s =
          populateIfEmpty hist recent now1 s ++ u := hu
      rw [htnil] at this
      exact hpop (List.append_eq_nil.mp this.symm).1
    rw [htnil]
    show refreshFrom hist recent today now2 (populateIfEmpty hist recent now2 []) = []
    have hpop : populateIfEmpty hist recent now2 [] = [] := by
      simp [populateIfEmpty, hgpd]
    rw [hpop]
    exact refreshFrom_none hist recent today now2 [] rfl
  | some L =>
    have htne : startup_event hist recent today now1 s ≠ [] := by
      intro hc
      rw [hc] at hlt
      simp [getLatest] at hlt
    show refreshFrom hist recent today now2
        (populateIfEmpty hist recent now2 (startup_event hist recent today now1 s)) =
      startup_event hist recent today now1 s
    have hpop : populateIfEmpty hist recent now2 (startup_event hist recent today now1 s) =
        startup_event hist recent today now1 s := by
      unfold populateIfEmpty
      rw [if_neg (by rw [List.isEmpty_iff]; exact htne)]
    rw [hpop]
    exact refreshFrom_fix hist recent today now2 _ L hlt
      (fun hmd => refreshFrom_post hist recent today now1
        (populateIfEmpty hist recent now1 s) L hlt hmd)

end Infl
